import Mathlib

/-!
Shallow embedding of the core of the `railway_keiziban` bulletin-board client:
the shared HTTP helper (`src/shared/lib/http.ts`), the error formatter
(`src/utils/errorUtils.ts`), the async-state tracker
(`src/hooks/useAsyncState.ts`), the expiring local cache
(`src/shared/lib/cache.ts`) and the thread/post remote operations
(`src/features/threads/api/threads.ts`, `src/services/threadService.ts`),
together with theorems settling the specification's claims about them.

JavaScript promises are embedded as values of `Except JsValue α`: a promise
either resolves with an `α` or rejects with a thrown JavaScript value.
Network traffic is embedded by passing each operation the decoded response
it would observe.
-/

set_option autoImplicit false

namespace RailwayKeiziban

/-- A JSON value as decoded by `Response.json()`. -/
inductive Json where
  | null
  | bool (b : Bool)
  | num (n : Int)
  | str (s : String)
  | arr (elems : List Json)
  | obj (fields : List (String × Json))

/-- `Array.isArray` on a decoded JSON value. -/
def Json.isArr : Json → Bool
  | .arr _ => true
  | _ => false

/-- A JavaScript value that can be thrown. `error msg` is an `Error` instance
whose `message` property is `msg`; the remaining constructors model the
non-`Error` throwables the formatter must tolerate (`throw "x"`, `throw 1`,
`throw true`, `throw null`). -/
inductive JsValue where
  | error (message : String)
  | str (s : String)
  | num (n : Int)
  | bool (b : Bool)
  | null
  deriving DecidableEq

/-- `formatErrorMessage` from `src/utils/errorUtils.ts`: if the caught value is
an `Error` instance, return its `message`; otherwise return the caller-supplied
default message. -/
def formatErrorMessage (error : JsValue) (defaultMessage : String) : String :=
  match error with
  | .error message => message
  | _ => defaultMessage

/-- An HTTP response as seen by the client: its status code and its decoded
JSON body. -/
structure HttpResponse where
  status : Nat
  body : Json

/-- `Response.ok` per the Fetch standard: the status lies in [200, 299]. -/
def respOk (status : Nat) : Bool :=
  decide (200 ≤ status ∧ status ≤ 299)

/-- `fetchWithErrorHandling` from `src/shared/lib/http.ts`: on a non-ok status
it throws an `Error` whose message embeds the status code, without looking at
the body; on an ok status it resolves with the decoded JSON body, unvalidated. -/
def fetchWithErrorHandling (response : HttpResponse) : Except JsValue Json :=
  if respOk response.status then
    .ok response.body
  else
    .error (.error ("サーバーとの通信でエラーが発生しました (Status: " ++ toString response.status ++ ")"))

/-- The `(data, loading, error)` triple managed by `useAsyncState`
(`src/hooks/useAsyncState.ts`). `none` embeds JavaScript `null`. -/
structure AsyncState (T : Type) where
  data : Option T
  loading : Bool
  error : Option String
  deriving DecidableEq

/-- The initial state produced by `useAsyncState(initialData)`:
`(initialData, false, null)`. -/
def initialAsyncState (T : Type) (initialData : Option T) : AsyncState T :=
  { data := initialData, loading := false, error := none }

/-- The successive states produced by one call of `useAsyncState.execute`,
in order: `setLoading(true)`, `setError(null)`, then on resolution
`setData(result)`, or on rejection `setError(formatErrorMessage err d)` and
`setData(null)`, and in both cases finally `setLoading(false)`.
`asyncFnResult` is the settled outcome of the awaited `asyncFn()`. -/
def executeTrace {T : Type} (s0 : AsyncState T) (asyncFnResult : Except JsValue T)
    (defaultErrorMessage : String) : List (AsyncState T) :=
  let sLoad := { s0 with loading := true }
  let sClear := { sLoad with error := none }
  match asyncFnResult with
  | .ok result =>
    let sData := { sClear with data := some result }
    [sLoad, sClear, sData, { sData with loading := false }]
  | .error err =>
    let sErr := { sClear with error := some (formatErrorMessage err defaultErrorMessage) }
    let sNoData := { sErr with data := none }
    [sLoad, sClear, sErr, sNoData, { sNoData with loading := false }]

/-- The state in which one call of `useAsyncState.execute` leaves the tracker:
the last state of its trace. The rejection of `asyncFn` is consumed by the
`catch` block, and the `finally` block always runs, so `execute` always
settles successfully; it is therefore embedded as a total function. -/
def execute {T : Type} (s0 : AsyncState T) (asyncFnResult : Except JsValue T)
    (defaultErrorMessage : String) : AsyncState T :=
  ((executeTrace s0 asyncFnResult defaultErrorMessage).getLast?).getD s0

/-- JavaScript `String.prototype.trim`: strip whitespace from both ends. -/
def jsTrim (s : String) : String :=
  ⟨((s.toList.dropWhile Char.isWhitespace).reverse.dropWhile Char.isWhitespace).reverse⟩

/-- JavaScript truthiness of a `string | null | undefined` value: `null`,
`undefined` and the empty string are falsy. -/
def jsTruthy (x : Option String) : Bool :=
  match x with
  | some s => s != ""
  | none => false

/-- JavaScript `x || fallback` on a `string | undefined` value: the fallback is
used when `x` is `undefined` or the empty string (falsy). -/
def jsOrString (x : Option String) (fallback : String) : String :=
  match x with
  | some s => if s == "" then fallback else s
  | none => fallback

/-- One entry of the `localStorage`-backed cache (`src/shared/lib/cache.ts`):
its key, its stored string value, and the absolute time at which the one-shot
removal timer scheduled by `set` fires (`none` when no timer was scheduled). -/
structure CacheEntry where
  key : String
  value : String
  timerAt : Option Nat
  deriving DecidableEq

/-- The contents of the cache, newest entry first. -/
abbrev CacheState := List CacheEntry

/-- Whether an entry is still present at absolute time `now`: its removal timer
has not fired yet (timers fire at `timerAt`). -/
def entryLive (now : Nat) (e : CacheEntry) : Bool :=
  match e.timerAt with
  | none => true
  | some t => decide (now < t)

/-- `localCache.get key` evaluated at absolute time `now`: the value of the
live entry for `key`, or `null` when there is none. -/
def cacheGet (now : Nat) (st : CacheState) (key : String) : Option String :=
  match (st.filter (entryLive now)).find? (fun e => e.key == key) with
  | some e => some e.value
  | none => none

/-- `localCache.set key value ttlMs` executed at absolute time `now`: the write
happens immediately, and when `ttlMs > 0` a one-shot removal is scheduled
`ttlMs` later. The new entry supersedes any previous entry for the key. -/
def cacheSet (now : Nat) (st : CacheState) (key value : String) (ttlMs : Nat) : CacheState :=
  { key := key, value := value,
    timerAt := if 0 < ttlMs then some (now + ttlMs) else none } ::
    st.filter (fun e => e.key != key)

/-- `CACHE.EXPIRE_TIME` from the constants module: one hour in milliseconds. -/
def EXPIRE_TIME : Nat := 3600000

/-- `cacheUtils.generateKey` / the key built inline in `getThreadTitle`:
`CACHE.THREAD_TITLE_PREFIX` (the string `thread_title_`) followed by the
thread id. -/
def generateKey (threadId : String) : String :=
  "thread_title_" ++ threadId

/-- `API_CONFIG.BASE_URL`, the threads collection endpoint. -/
def BASE_URL : String := "https://railway.bulletinboard.techtrain.dev/threads"

/-- A `Thread` as defined in `src/features/threads/types.ts`. -/
structure Thread where
  id : String
  title : String
  createdAt : String
  deriving DecidableEq

/-- A `Post` as defined in `src/features/threads/types.ts`. -/
structure Post where
  id : String
  post : String
  deriving DecidableEq

/-- The decoded `ApiError` body of a failed posts request. The TypeScript
interface declares `ErrorMessageJP : string`, but the decoded JSON is not
validated, so the field is embedded as optional; the code guards every use
with `||`. -/
structure ApiErrorBody where
  ErrorCode : Int
  ErrorMessageJP : Option String
  ErrorMessageEN : Option String
  deriving DecidableEq

/-- `getThreads` from `src/features/threads/api/threads.ts` (the
`threadService.ts` copy only adds a `console.error` before rethrowing):
fetch through `fetchWithErrorHandling`, then throw the invalid-shape `Error`
unless `Array.isArray` holds, and otherwise return the body unchanged. -/
def getThreads (response : HttpResponse) : Except JsValue Json :=
  match fetchWithErrorHandling response with
  | .error e => .error e
  | .ok threadsData =>
    if threadsData.isArr then .ok threadsData
    else .error (.error "APIから予期しない形式のデータが返されました")

/-- `getThreadPosts` from `src/features/threads/api/threads.ts` (the
`threadService.ts` copy only adds a `console.error` before rethrowing):
on a non-ok status the decoded `ApiError` body selects the message by status
(the JavaScript `switch` over 404/400/500 with a default branch); on an ok
status the decoded body is returned. `errorData` is the decoded error body,
`body` the decoded success body. -/
def getThreadPosts (status : Nat) (errorData : ApiErrorBody) (body : Json) :
    Except JsValue Json :=
  if respOk status then .ok body
  else if status = 404 then
    .error (.error (jsOrString errorData.ErrorMessageJP "そのスレッドは存在しません。"))
  else if status = 400 then
    .error (.error (jsOrString errorData.ErrorMessageJP "バリデーションエラー"))
  else if status = 500 then
    .error (.error (jsOrString errorData.ErrorMessageJP "サーバでエラーが発生しました。"))
  else
    .error (.error ("エラー: " ++ toString status))

/-- The observable outcome of one `getThreadTitle` call: its settled result,
the cache contents it leaves behind, and the URLs of the network requests it
issued. -/
structure TitleCall where
  result : Except JsValue String
  cache : CacheState
  requests : List String

/-- `getThreadTitle` from `src/features/threads/api/threads.ts` (the
`threadService.ts` copy differs only in the `console.error` on the rethrow
path): return a truthy cached value immediately; otherwise fetch the thread
list at offset 0 through `fetchWithErrorHandling`, search it with `find`,
take the found title or the placeholder (`thread?.title || 'スレッド'`), and
write the cache (with the default TTL) only when a thread matched.
`fetchResult` is the outcome the fetch would settle with, consulted only when
a request is actually issued. -/
def getThreadTitle (now : Nat) (cache : CacheState) (threadId : String)
    (fetchResult : Except JsValue (List Thread)) : TitleCall :=
  let cacheKey := generateKey threadId
  let fetchPath : TitleCall :=
    match fetchResult with
    | .error e => { result := .error e, cache := cache, requests := [BASE_URL ++ "?offset=0"] }
    | .ok threads =>
      let thread := threads.find? (fun t => t.id == threadId)
      let title := jsOrString (thread.map Thread.title) "スレッド"
      match thread with
      | some _ =>
        { result := .ok title,
          cache := cacheSet now cache cacheKey title EXPIRE_TIME,
          requests := [BASE_URL ++ "?offset=0"] }
      | none => { result := .ok title, cache := cache, requests := [BASE_URL ++ "?offset=0"] }
  match cacheGet now cache cacheKey with
  | some cached => if cached == "" then fetchPath else { result := .ok cached, cache := cache, requests := [] }
  | none => fetchPath

/-- `useCreatePost.handleCreatePost` from the features hooks: it throws an
`Error` before ever invoking `execute` when the thread id is missing
(`!threadId`) or the trimmed input is empty; otherwise it runs `execute`
with the `createPost` call and the default message `投稿の作成中にエラーが発生しました`.
The returned value is the settled outcome of `handleCreatePost` itself:
`.error` when it throws (the tracker state is then left untouched), `.ok`
with the tracker state `execute` leaves behind otherwise.
`createPostResult` is the settled outcome of the underlying `createPost`. -/
def handleCreatePost (threadId : Option String) (post : String) (s0 : AsyncState Post)
    (createPostResult : Except JsValue Post) : Except JsValue (AsyncState Post) :=
  if !jsTruthy threadId then
    .error (.error "スレッドIDが指定されていません")
  else
    let trimmed := jsTrim post
    if trimmed == "" then
      .error (.error "投稿内容を入力してください")
    else
      .ok (execute s0 createPostResult "投稿の作成中にエラーが発生しました")

/-- An HTTP request as issued by the client: method, URL and optional JSON
body. -/
structure HttpRequest where
  method : String
  url : String
  body : Option Json

/-- Modelled from the spec: the active `createPost` is missing from the
sources — the api module contains only a commented-out draft, while its
caller `useCreatePost` imports `createPost` and applies it to
`(threadId, trimmed)`. Spec §4.3/§6: `createPost(threadId, body)` issues
`POST /threads/{id}/posts` with body `{post: body}` through the HTTP Request
Executor and resolves with the created Post; it performs no validation of its
input. The first component is the request issued, the second the settled
outcome given the response. -/
def createPost (threadId : String) (post : String) (response : HttpResponse) :
    HttpRequest × Except JsValue Json :=
  ({ method := "POST",
     url := BASE_URL ++ "/" ++ threadId ++ "/posts",
     body := some (.obj [("post", .str post)]) },
   fetchWithErrorHandling response)

/-! Helper lemmas shared by the claim theorems. -/

/-- One `execute` call whose operation resolves ends in
`(some result, false, none)`. -/
theorem execute_ok_eq {T : Type} (s0 : AsyncState T) (v : T) (d : String) :
    execute s0 (.ok v) d = { data := some v, loading := false, error := none } := rfl

/-- One `execute` call whose operation rejects ends in
`(none, false, formatErrorMessage err d)`. -/
theorem execute_error_eq {T : Type} (s0 : AsyncState T) (e : JsValue) (d : String) :
    execute s0 (.error e) d =
      { data := none, loading := false, error := some (formatErrorMessage e d) } := rfl

/-- The `||` fallback never produces the empty string when the fallback itself
is nonempty. -/
theorem jsOrString_ne_empty (x : Option String) (fallback : String) (h : fallback ≠ "") :
    jsOrString x fallback ≠ "" := by
  cases x with
  | none => exact h
  | some s => by_cases hs : s = "" <;> simp [jsOrString, hs, h]

/-- Reading a key right after `set` with a positive TTL, before the removal
timer fires, yields the written value. -/
theorem cacheGet_cacheSet_self (now later : Nat) (st : CacheState) (key value : String)
    (ttl : Nat) (httl : 0 < ttl) (hlt : later < now + ttl) :
    cacheGet later (cacheSet now st key value ttl) key = some value := by
  simp [cacheGet, cacheSet, entryLive, httl, hlt]

/-- A cache-hit `getThreadTitle` call (live entry with a truthy value) returns
the cached value, touches nothing and issues no request. -/
theorem getThreadTitle_hit (now : Nat) (cache : CacheState) (threadId v : String)
    (fr : Except JsValue (List Thread))
    (hc : cacheGet now cache (generateKey threadId) = some v) (hv : v ≠ "") :
    getThreadTitle now cache threadId fr =
      { result := .ok v, cache := cache, requests := [] } := by
  simp [getThreadTitle, hc, hv]

/-- A cache-miss `getThreadTitle` call that finds a matching thread returns
`thread.title || placeholder`, writes it back with the default TTL, and issues
one request for offset 0 of the thread list. -/
theorem getThreadTitle_miss_found (now : Nat) (cache : CacheState) (threadId : String)
    (ts : List Thread) (t : Thread)
    (hmiss : jsTruthy (cacheGet now cache (generateKey threadId)) = false)
    (hfind : ts.find? (fun th => th.id == threadId) = some t) :
    getThreadTitle now cache threadId (.ok ts) =
      { result := .ok (jsOrString (some t.title) "スレッド"),
        cache := cacheSet now cache (generateKey threadId)
          (jsOrString (some t.title) "スレッド") EXPIRE_TIME,
        requests := [BASE_URL ++ "?offset=0"] } := by
  cases hc : cacheGet now cache (generateKey threadId) with
  | none => simp [getThreadTitle, hc, hfind]
  | some s =>
    have hs : s = "" := by
      rw [hc] at hmiss
      simpa [jsTruthy] using hmiss
    subst hs
    simp [getThreadTitle, hc, hfind]

/-- A cache-miss `getThreadTitle` call that finds no matching thread returns
the placeholder, leaves the cache untouched, and issues one request for
offset 0 of the thread list. -/
theorem getThreadTitle_miss_notfound (now : Nat) (cache : CacheState) (threadId : String)
    (ts : List Thread)
    (hmiss : jsTruthy (cacheGet now cache (generateKey threadId)) = false)
    (hfind : ts.find? (fun th => th.id == threadId) = none) :
    getThreadTitle now cache threadId (.ok ts) =
      { result := .ok "スレッド", cache := cache,
        requests := [BASE_URL ++ "?offset=0"] } := by
  cases hc : cacheGet now cache (generateKey threadId) with
  | none => simp [getThreadTitle, hc, hfind, jsOrString]
  | some s =>
    have hs : s = "" := by
      rw [hc] at hmiss
      simpa [jsTruthy] using hmiss
    subst hs
    simp [getThreadTitle, hc, hfind, jsOrString]

/-! Claim theorems. -/

/-- Claim C1: one `execute` call first sets `loading = true` and clears
`error`; when the operation resolves with `v` the final state is
`(data = v, error = null, loading = false)`, and when it rejects with
`Error("boom")` the final state is
`(data = null, error = "boom", loading = false)`. -/
theorem execute_lifecycle (T : Type) (s0 : AsyncState T) (d : String) :
    (∀ r : Except JsValue T, (executeTrace s0 r d).take 2 =
      [{ s0 with loading := true }, { s0 with loading := true, error := none }]) ∧
    (∀ v : T, execute s0 (.ok v) d = { data := some v, loading := false, error := none }) ∧
    (∀ m : String, execute s0 (.error (.error m)) d =
      { data := none, loading := false, error := some m }) := by
  refine ⟨fun r => ?_, fun v => execute_ok_eq s0 v d, fun m => execute_error_eq s0 (.error m) d⟩
  cases r <;> rfl

/-- Claim C10: `execute` always settles successfully — it is total over both
resolving and rejecting operations, a rejection surfacing only through the
stored error string — and `loading` is `false` once it has settled. -/
theorem execute_never_rejects (T : Type) (s0 : AsyncState T) (d : String)
    (r : Except JsValue T) :
    (execute s0 r d).loading = false ∧
    (∀ e : JsValue, r = .error e →
      (execute s0 r d).error = some (formatErrorMessage e d)) := by
  cases r with
  | ok v => exact ⟨rfl, fun e h => by cases h⟩
  | error e =>
    refine ⟨rfl, fun e' h => ?_⟩
    injection h with h'
    subst h'
    rfl

/-- Witness for `execute_never_rejects` at a concrete rejecting operation. -/
theorem execute_never_rejects_witness :
    (execute (initialAsyncState Nat none) (.error (.error "boom")) "fallback").loading = false ∧
    (execute (initialAsyncState Nat none) (.error (.error "boom")) "fallback").error =
      some (formatErrorMessage (.error "boom") "fallback") :=
  ⟨(execute_never_rejects Nat (initialAsyncState Nat none) "fallback" (.error (.error "boom"))).1,
   (execute_never_rejects Nat (initialAsyncState Nat none) "fallback"
      (.error (.error "boom"))).2 (.error "boom") rfl⟩

/-- Claim C6: the formatter used on the tracker's failure path returns the
caught value's own message exactly when that value is an `Error` carrying
one, and the caller-supplied default message otherwise. -/
theorem formatErrorMessage_spec (e : JsValue) (d : String) :
    (∀ m : String, e = .error m → formatErrorMessage e d = m) ∧
    ((∀ m : String, e ≠ .error m) → formatErrorMessage e d = d) := by
  constructor
  · rintro m rfl
    rfl
  · intro h
    cases e with
    | error m => exact absurd rfl (h m)
    | str s => rfl
    | num n => rfl
    | bool b => rfl
    | null => rfl

/-- Witness for `formatErrorMessage_spec` on an `Error` and a thrown string. -/
theorem formatErrorMessage_spec_witness :
    formatErrorMessage (.error "boom") "fallback" = "boom" ∧
    formatErrorMessage (.str "oops") "fallback" = "fallback" :=
  ⟨(formatErrorMessage_spec (.error "boom") "fallback").1 "boom" rfl,
   (formatErrorMessage_spec (.str "oops") "fallback").2 (fun _ h => JsValue.noConfusion h)⟩

/-- Claim C5: on a non-success status `fetchWithErrorHandling` rejects with an
`Error` whose message embeds the numeric status code and does not depend on
the response body; on a success status it resolves with the decoded body,
whatever its shape. -/
theorem fetchWithErrorHandling_spec (status : Nat) (b b' : Json) :
    (respOk status = false →
      fetchWithErrorHandling { status := status, body := b } =
        .error (.error ("サーバーとの通信でエラーが発生しました (Status: " ++ toString status ++ ")")) ∧
      fetchWithErrorHandling { status := status, body := b } =
        fetchWithErrorHandling { status := status, body := b' }) ∧
    (respOk status = true →
      fetchWithErrorHandling { status := status, body := b } = .ok b) := by
  constructor
  · intro h
    constructor <;> simp [fetchWithErrorHandling, h]
  · intro h
    simp [fetchWithErrorHandling, h]

/-- Witness for `fetchWithErrorHandling_spec` at statuses 404 and 200. -/
theorem fetchWithErrorHandling_spec_witness :
    fetchWithErrorHandling { status := 404, body := .null } =
      .error (.error ("サーバーとの通信でエラーが発生しました (Status: " ++ toString 404 ++ ")")) ∧
    fetchWithErrorHandling { status := 200, body := .str "x" } = .ok (.str "x") :=
  ⟨((fetchWithErrorHandling_spec 404 .null (.str "x")).1 (by decide)).1,
   (fetchWithErrorHandling_spec 200 (.str "x") .null).2 (by decide)⟩

/-- Claim C7: a `getThreads` call with a successful response whose decoded
body is not an array fails with the invalid-response-shape error, and one
whose body is an array returns it unchanged. -/
theorem getThreads_shape (status : Nat) (b : Json) (hok : respOk status = true) :
    (b.isArr = false →
      getThreads { status := status, body := b } =
        .error (.error "APIから予期しない形式のデータが返されました")) ∧
    (b.isArr = true → getThreads { status := status, body := b } = .ok b) := by
  constructor <;> intro hb <;> simp [getThreads, fetchWithErrorHandling, hok, hb]

/-- Witness for `getThreads_shape` on a non-array and an array body. -/
theorem getThreads_shape_witness :
    getThreads { status := 200, body := .null } =
      .error (.error "APIから予期しない形式のデータが返されました") ∧
    getThreads { status := 200, body := .arr [] } = .ok (.arr []) :=
  ⟨(getThreads_shape 200 .null (by decide)).1 rfl,
   (getThreads_shape 200 (.arr []) (by decide)).2 rfl⟩

/-- Claim C4: a failed posts request with status 404, 400 or 500 rejects with
the server's localized message when the decoded `ApiError` body carries a
truthy one, with the status-specific fallback when it does not, and any other
non-success status rejects with the generic message embedding the status
code. -/
theorem getThreadPosts_error_messages (status : Nat) (errorData : ApiErrorBody)
    (body : Json) (hne : respOk status = false) :
    (∀ m : String, errorData.ErrorMessageJP = some m → m ≠ "" →
      status = 404 ∨ status = 400 ∨ status = 500 →
      getThreadPosts status errorData body = .error (.error m)) ∧
    (errorData.ErrorMessageJP = none ∨ errorData.ErrorMessageJP = some "" →
      (status = 404 → getThreadPosts status errorData body =
        .error (.error "そのスレッドは存在しません。")) ∧
      (status = 400 → getThreadPosts status errorData body =
        .error (.error "バリデーションエラー")) ∧
      (status = 500 → getThreadPosts status errorData body =
        .error (.error "サーバでエラーが発生しました。"))) ∧
    (status ≠ 404 → status ≠ 400 → status ≠ 500 →
      getThreadPosts status errorData body =
        .error (.error ("エラー: " ++ toString status))) := by
  refine ⟨?_, ?_, ?_⟩
  · rintro m hJP hm (rfl | rfl | rfl) <;>
      simp [getThreadPosts, jsOrString, hne, hJP, hm]
  · rintro (hJP | hJP) <;>
      refine ⟨fun h => ?_, fun h => ?_, fun h => ?_⟩ <;> subst h <;>
      simp [getThreadPosts, jsOrString, hne, hJP]
  · intro h404 h400 h500
    simp [getThreadPosts, hne, h404, h400, h500]

/-- Witness for `getThreadPosts_error_messages`: a 404 with a server message,
a 400 without one, and a 503 hitting the generic branch. -/
theorem getThreadPosts_error_messages_witness :
    getThreadPosts 404
      { ErrorCode := 1, ErrorMessageJP := some "見つかりません", ErrorMessageEN := none } .null =
      .error (.error "見つかりません") ∧
    getThreadPosts 400
      { ErrorCode := 1, ErrorMessageJP := none, ErrorMessageEN := none } .null =
      .error (.error "バリデーションエラー") ∧
    getThreadPosts 503
      { ErrorCode := 1, ErrorMessageJP := some "x", ErrorMessageEN := none } .null =
      .error (.error ("エラー: " ++ toString 503)) :=
  ⟨(getThreadPosts_error_messages 404
      { ErrorCode := 1, ErrorMessageJP := some "見つかりません", ErrorMessageEN := none } .null
      (by decide)).1 "見つかりません" rfl (by decide) (Or.inl rfl),
   ((getThreadPosts_error_messages 400
      { ErrorCode := 1, ErrorMessageJP := none, ErrorMessageEN := none } .null
      (by decide)).2.1 (Or.inl rfl)).2.1 rfl,
   (getThreadPosts_error_messages 503
      { ErrorCode := 1, ErrorMessageJP := some "x", ErrorMessageEN := none } .null
      (by decide)).2.2 (by decide) (by decide) (by decide)⟩

/-- Counterexample to claim C2 as stated: on a cache miss whose fetched list
contains a matching thread with an empty title, `getThreadTitle` does not
return "that thread's title" — `thread?.title || 'スレッド'` selects the
placeholder instead. -/
theorem getThreadTitle_empty_title_counterexample :
    (getThreadTitle 0 [] "t1" (.ok [{ id := "t1", title := "", createdAt := "c" }])).result =
      .ok "スレッド" ∧
    (getThreadTitle 0 [] "t1" (.ok [{ id := "t1", title := "", createdAt := "c" }])).result ≠
      .ok (Thread.title { id := "t1", title := "", createdAt := "c" }) := by
  constructor
  · rfl
  · intro h
    injection h with h'
    exact absurd h' (by decide)

/-- Claim C2 (amended): a truthy cached title is returned immediately with no
network request and no cache change; on a miss the thread list is fetched at
offset 0 and searched with `find`, yielding the matched thread's title when
that title is non-empty, and the placeholder when the matched title is empty
or no thread matches; and a second call within the TTL of a first cache-miss
call that found a match is served from the cache, so the two calls issue at
most one request in total. -/
theorem getThreadTitle_cache_behavior (now later : Nat) (cache : CacheState)
    (threadId v : String) (ts : List Thread)
    (fr fr2 : Except JsValue (List Thread)) :
    (cacheGet now cache (generateKey threadId) = some v → v ≠ "" →
      getThreadTitle now cache threadId fr =
        { result := .ok v, cache := cache, requests := [] }) ∧
    (jsTruthy (cacheGet now cache (generateKey threadId)) = false →
      (getThreadTitle now cache threadId (.ok ts)).requests = [BASE_URL ++ "?offset=0"] ∧
      (∀ t : Thread, ts.find? (fun th => th.id == threadId) = some t → t.title ≠ "" →
        (getThreadTitle now cache threadId (.ok ts)).result = .ok t.title) ∧
      (∀ t : Thread, ts.find? (fun th => th.id == threadId) = some t → t.title = "" →
        (getThreadTitle now cache threadId (.ok ts)).result = .ok "スレッド") ∧
      (ts.find? (fun th => th.id == threadId) = none →
        (getThreadTitle now cache threadId (.ok ts)).result = .ok "スレッド")) ∧
    (jsTruthy (cacheGet now cache (generateKey threadId)) = false →
      (ts.find? (fun th => th.id == threadId)).isSome = true →
      now ≤ later → later < now + EXPIRE_TIME →
      (getThreadTitle later (getThreadTitle now cache threadId (.ok ts)).cache threadId fr2).requests
        = [] ∧
      (getThreadTitle now cache threadId (.ok ts)).requests.length +
        (getThreadTitle later (getThreadTitle now cache threadId (.ok ts)).cache threadId
          fr2).requests.length ≤ 1 ∧
      (getThreadTitle later (getThreadTitle now cache threadId (.ok ts)).cache threadId fr2).result
        = (getThreadTitle now cache threadId (.ok ts)).result) := by
  refine ⟨fun hc hv => getThreadTitle_hit now cache threadId v fr hc hv, fun hmiss => ?_, ?_⟩
  · refine ⟨?_, fun t hfind ht => ?_, fun t hfind ht => ?_, fun hfind => ?_⟩
    · cases hfind : ts.find? (fun th => th.id == threadId) with
      | none => rw [getThreadTitle_miss_notfound now cache threadId ts hmiss hfind]
      | some t => rw [getThreadTitle_miss_found now cache threadId ts t hmiss hfind]
    · rw [getThreadTitle_miss_found now cache threadId ts t hmiss hfind]
      simp [jsOrString, ht]
    · rw [getThreadTitle_miss_found now cache threadId ts t hmiss hfind]
      simp [jsOrString, ht]
    · rw [getThreadTitle_miss_notfound now cache threadId ts hmiss hfind]
  · intro hmiss hfound _hle hlt
    obtain ⟨t, hfind⟩ := Option.isSome_iff_exists.mp hfound
    rw [getThreadTitle_miss_found now cache threadId ts t hmiss hfind]
    have htitle : jsOrString (some t.title) "スレッド" ≠ "" :=
      jsOrString_ne_empty (some t.title) "スレッド" (by decide)
    have hc2 : cacheGet later
        (cacheSet now cache (generateKey threadId) (jsOrString (some t.title) "スレッド")
          EXPIRE_TIME) (generateKey threadId) = some (jsOrString (some t.title) "スレッド") :=
      cacheGet_cacheSet_self now later cache (generateKey threadId)
        (jsOrString (some t.title) "スレッド") EXPIRE_TIME (by decide) hlt
    rw [getThreadTitle_hit later _ threadId (jsOrString (some t.title) "スレッド") fr2 hc2 htitle]
    exact ⟨rfl, by simp, rfl⟩

/-- Witness for `getThreadTitle_cache_behavior`: a concrete hit, a concrete
miss with a non-empty-titled match, with an empty-titled match, and with no
match, and the two-call scenario. -/
theorem getThreadTitle_cache_behavior_witness :
    getThreadTitle 5 [{ key := "thread_title_t1", value := "鉄道", timerAt := some 9 }] "t1"
      (.error .null) =
      { result := .ok "鉄道",
        cache := [{ key := "thread_title_t1", value := "鉄道", timerAt := some 9 }],
        requests := [] } ∧
    (getThreadTitle 0 [] "t1" (.ok [{ id := "t1", title := "鉄道", createdAt := "c" }])).result =
      .ok "鉄道" ∧
    (getThreadTitle 0 [] "t1" (.ok [{ id := "t1", title := "", createdAt := "c" }])).result =
      .ok "スレッド" ∧
    (getThreadTitle 0 [] "t2" (.ok [{ id := "t1", title := "鉄道", createdAt := "c" }])).result =
      .ok "スレッド" ∧
    (getThreadTitle 0 [] "t1" (.ok [{ id := "t1", title := "鉄道", createdAt := "c" }])).requests.length +
      (getThreadTitle 10
        (getThreadTitle 0 [] "t1" (.ok [{ id := "t1", title := "鉄道", createdAt := "c" }])).cache
        "t1" (.error .null)).requests.length ≤ 1 :=
  ⟨(getThreadTitle_cache_behavior 5 5
      [{ key := "thread_title_t1", value := "鉄道", timerAt := some 9 }] "t1" "鉄道" []
      (.error .null) (.error .null)).1 rfl (by decide),
   ((getThreadTitle_cache_behavior 0 0 [] "t1" ""
      [{ id := "t1", title := "鉄道", createdAt := "c" }] (.error .null) (.error .null)).2.1
      rfl).2.1 { id := "t1", title := "鉄道", createdAt := "c" } rfl (by decide),
   ((getThreadTitle_cache_behavior 0 0 [] "t1" ""
      [{ id := "t1", title := "", createdAt := "c" }] (.error .null) (.error .null)).2.1
      rfl).2.2.1 { id := "t1", title := "", createdAt := "c" } rfl rfl,
   ((getThreadTitle_cache_behavior 0 0 [] "t2" ""
      [{ id := "t1", title := "鉄道", createdAt := "c" }] (.error .null) (.error .null)).2.1
      rfl).2.2.2 rfl,
   ((getThreadTitle_cache_behavior 0 10 [] "t1" ""
      [{ id := "t1", title := "鉄道", createdAt := "c" }] (.error .null) (.error .null)).2.2
      rfl rfl (by decide) (by decide)).2.1⟩

/-- Counterexample to claim C3 as stated: a fetched list containing a matching
thread whose title is the empty string makes `getThreadTitle` write the
fallback placeholder `スレッド` itself into the cache
(`thread?.title || 'スレッド'` selects the placeholder, and the write happens
because a thread matched). -/
theorem getThreadTitle_stores_placeholder :
    (getThreadTitle 0 [] "t1" (.ok [{ id := "t1", title := "", createdAt := "c" }])).cache =
      [{ key := "thread_title_t1", value := "スレッド", timerAt := some 3600000 }] := by
  rfl

/-- Claim C3 (amended): on a cache-miss call whose fetch succeeds, the cache
is written exactly when the fetched list contains a matching thread — the
written value being `thread.title || placeholder`, so the placeholder itself
is stored exactly when the matching thread's title is empty — and for an id
absent from the list the call leaves the cache unchanged (the placeholder is
never cached in the no-match case) and issues one fresh network request. -/
theorem getThreadTitle_cache_writes (now : Nat) (cache : CacheState)
    (threadId : String) (ts : List Thread)
    (hmiss : jsTruthy (cacheGet now cache (generateKey threadId)) = false) :
    (∀ t : Thread, ts.find? (fun th => th.id == threadId) = some t →
      (getThreadTitle now cache threadId (.ok ts)).cache =
        cacheSet now cache (generateKey threadId)
          (jsOrString (some t.title) "スレッド") EXPIRE_TIME) ∧
    (ts.find? (fun th => th.id == threadId) = none →
      (getThreadTitle now cache threadId (.ok ts)).cache = cache ∧
      (getThreadTitle now cache threadId (.ok ts)).result = .ok "スレッド" ∧
      (getThreadTitle now cache threadId (.ok ts)).requests = [BASE_URL ++ "?offset=0"]) := by
  constructor
  · intro t hfind
    rw [getThreadTitle_miss_found now cache threadId ts t hmiss hfind]
  · intro hfind
    rw [getThreadTitle_miss_notfound now cache threadId ts hmiss hfind]
    exact ⟨rfl, rfl, rfl⟩

/-- Witness for `getThreadTitle_cache_writes`: one matched write and one
absent id leaving the cache empty. -/
theorem getThreadTitle_cache_writes_witness :
    (getThreadTitle 0 [] "t1" (.ok [{ id := "t1", title := "鉄道", createdAt := "c" }])).cache =
      cacheSet 0 [] (generateKey "t1") (jsOrString (some "鉄道") "スレッド") EXPIRE_TIME ∧
    (getThreadTitle 0 [] "t2" (.ok [{ id := "t1", title := "鉄道", createdAt := "c" }])).cache = [] ∧
    (getThreadTitle 0 [] "t2" (.ok [{ id := "t1", title := "鉄道", createdAt := "c" }])).requests =
      [BASE_URL ++ "?offset=0"] :=
  ⟨(getThreadTitle_cache_writes 0 [] "t1" [{ id := "t1", title := "鉄道", createdAt := "c" }]
      rfl).1 { id := "t1", title := "鉄道", createdAt := "c" } rfl,
   ((getThreadTitle_cache_writes 0 [] "t2" [{ id := "t1", title := "鉄道", createdAt := "c" }]
      rfl).2 rfl).1,
   ((getThreadTitle_cache_writes 0 [] "t2" [{ id := "t1", title := "鉄道", createdAt := "c" }]
      rfl).2 rfl).2.2⟩

/-- Counterexample to claim C8 as stated: with a missing thread id,
`useCreatePost`'s client-side validation failure is thrown before `execute`
is ever invoked, so the call itself rejects — the failure escapes to the
hook's caller instead of being caught by `execute` and converted into the
stored error string (a caught failure would yield an `.ok` tracker state
carrying the message in its `error` field). -/
theorem handleCreatePost_validation_escapes :
    handleCreatePost none "hello" (initialAsyncState Post none)
      (.ok { id := "p1", post := "hello" }) =
      .error (.error "スレッドIDが指定されていません") := by
  rfl

/-- Claim C8 (amended): failures thrown inside the operation passed to
`execute` — transport errors, domain API errors, invalid-shape errors —
propagate to `execute`, which catches them and stores the formatted message,
but `useCreatePost`'s client-side validation failures (missing thread id,
empty trimmed input) are thrown before `execute` is invoked and escape to
the hook's caller unconverted, leaving the tracker state untouched. -/
theorem handleCreatePost_propagation (threadId : Option String) (postBody : String)
    (s0 : AsyncState Post) (r : Except JsValue Post) :
    (∀ e : JsValue, r = .error e → jsTruthy threadId = true → (jsTrim postBody == "") = false →
      handleCreatePost threadId postBody s0 r =
        .ok { data := none, loading := false,
              error := some (formatErrorMessage e "投稿の作成中にエラーが発生しました") }) ∧
    (jsTruthy threadId = false →
      handleCreatePost threadId postBody s0 r =
        .error (.error "スレッドIDが指定されていません")) ∧
    (jsTruthy threadId = true → (jsTrim postBody == "") = true →
      handleCreatePost threadId postBody s0 r =
        .error (.error "投稿内容を入力してください")) := by
  refine ⟨?_, fun ht => ?_, fun ht hp => ?_⟩
  · rintro e rfl ht hp
    simp [handleCreatePost, ht, hp, execute_error_eq]
  · simp [handleCreatePost, ht]
  · simp [handleCreatePost, ht, hp]

/-- Witness for `handleCreatePost_propagation`: a transport failure caught and
stored, a missing thread id, and an all-whitespace input. -/
theorem handleCreatePost_propagation_witness :
    handleCreatePost (some "t1") "hello" (initialAsyncState Post none)
      (.error (.error "サーバーとの通信でエラーが発生しました (Status: 500)")) =
      .ok { data := none, loading := false,
            error := some "サーバーとの通信でエラーが発生しました (Status: 500)" } ∧
    handleCreatePost (some "") "hello" (initialAsyncState Post none)
      (.ok { id := "p1", post := "hello" }) =
      .error (.error "スレッドIDが指定されていません") ∧
    handleCreatePost (some "t1") "   " (initialAsyncState Post none)
      (.ok { id := "p1", post := "hello" }) =
      .error (.error "投稿内容を入力してください") :=
  ⟨(handleCreatePost_propagation (some "t1") "hello" (initialAsyncState Post none)
      (.error (.error "サーバーとの通信でエラーが発生しました (Status: 500)"))).1
      (.error "サーバーとの通信でエラーが発生しました (Status: 500)") rfl rfl (by decide),
   (handleCreatePost_propagation (some "") "hello" (initialAsyncState Post none)
      (.ok { id := "p1", post := "hello" })).2.1 rfl,
   (handleCreatePost_propagation (some "t1") "   " (initialAsyncState Post none)
      (.ok { id := "p1", post := "hello" })).2.2 rfl (by decide)⟩

/-- Claim C9 (modelled from the spec, the active `createPost` being absent
from the sources): `createPost` issues `POST /threads/{threadId}/posts` with
body `{post: body}` — also for empty input, which it does not re-validate —
and resolves with the created post on a successful response. -/
theorem createPost_spec (threadId post : String) (response : HttpResponse) :
    (createPost threadId post response).1.method = "POST" ∧
    (createPost threadId post response).1.url =
      "https://railway.bulletinboard.techtrain.dev/threads/" ++ threadId ++ "/posts" ∧
    (createPost threadId post response).1.body = some (.obj [("post", .str post)]) ∧
    (respOk response.status = true →
      (createPost threadId post response).2 = .ok response.body) := by
  refine ⟨rfl, ?_, rfl, fun h => ?_⟩
  · simp [createPost, BASE_URL]
  · simp [createPost, fetchWithErrorHandling, h]

/-- Witness for `createPost_spec` at empty input and a 200 response. -/
theorem createPost_spec_witness :
    (createPost "t9" "" { status := 200, body := .str "made" }).1.url =
      "https://railway.bulletinboard.techtrain.dev/threads/" ++ "t9" ++ "/posts" ∧
    (createPost "t9" "" { status := 200, body := .str "made" }).1.body =
      some (.obj [("post", .str "")]) ∧
    (createPost "t9" "" { status := 200, body := .str "made" }).2 = .ok (.str "made") :=
  ⟨(createPost_spec "t9" "" { status := 200, body := .str "made" }).2.1,
   (createPost_spec "t9" "" { status := 200, body := .str "made" }).2.2.1,
   (createPost_spec "t9" "" { status := 200, body := .str "made" }).2.2.2 (by decide)⟩

end RailwayKeiziban
